import Mathlib

set_option maxRecDepth 4000

/-!
Verification of the szamlazz.hu client (`src/lib/Client.js`, `src/lib/XMLUtils.js`)
against its natural-language specification.

The JavaScript sources are shallowly embedded: JS runtime values appearing in
parsed XML documents become the inductive `JSVal`; the element trees fed to the
XML builder become `EData`; fallible code returns `Except`. External npm
collaborators (the `xml2js` parser, `Buffer`, `decodeURIComponent`) are either
taken as inputs (parse results are quantified over) or given executable models
noted in their doc comments.
-/

/-- A JavaScript runtime value as it occurs in `xml2js` parse results and in
the objects the client builds from them: strings, numbers, booleans, `null`,
arrays and plain objects (ordered key/value lists with unique keys).
`undefined` is represented by `Option.none` at access sites. -/
inductive JSVal where
  | str (s : String)
  | num (n : Int)
  | bool (b : Bool)
  | null
  | arr (xs : List JSVal)
  | obj (kvs : List (String × JSVal))
deriving Repr

/-- JS truthiness: `''`, `0`, `false`, `null` are falsy; arrays and objects are
always truthy. -/
def jsTruthy : JSVal → Bool
  | .str s => !(s == "")
  | .num n => !(n == 0)
  | .bool b => b
  | .null => false
  | .arr _ => true
  | .obj _ => true

/-- Truthiness of a possibly-`undefined` value (`none` = `undefined`). -/
def jsTruthyOpt : Option JSVal → Bool
  | none => false
  | some v => jsTruthy v

/-- Assoc-list lookup, first match (JS objects have unique keys). -/
def jsLookup (kvs : List (String × JSVal)) (k : String) : Option JSVal :=
  match kvs with
  | [] => none
  | (k', v) :: rest => if k' = k then some v else jsLookup rest k

/-- JS property read `p[k]`, returning `none` for `undefined`. On objects it is
assoc lookup; on arrays and strings the own properties are `length` and the
decimal indices. Property access on `null` throws in JS; the theorems below
only apply this to parsed-document shapes, where `null` never occurs as a
receiver, so that case is mapped to `undefined` here. -/
def getProp (p : JSVal) (k : String) : Option JSVal :=
  match p with
  | .obj kvs => jsLookup kvs k
  | .arr xs =>
      if k = "length" then some (.num xs.length)
      else ((List.range xs.length).find? (fun i => toString i = k)).map (fun i => xs.getD i .null)
  | .str s =>
      if k = "length" then some (.num s.length)
      else ((List.range s.data.length).find? (fun i => toString i = k)).map
        (fun i => .str (String.mk [s.data.getD i ' ']))
  | _ => none

/-- JS `Object.prototype.hasOwnProperty` as used by `xml2obj`'s walk. -/
def hasOwnProp (p : JSVal) (k : String) : Bool :=
  (getProp p k).isSome

/-- JS `p[0]`: first array element, first character of a string (as a
one-character string), or the `"0"` property of an object; `none` =
`undefined`. -/
def jsIndex0 : JSVal → Option JSVal
  | .arr xs => xs.head?
  | .str s => match s.data with
      | [] => none
      | c :: _ => some (.str (String.mk [c]))
  | .obj kvs => jsLookup kvs "0"
  | _ => none

/-- JS optional chain `x?.[0]` on a possibly-`undefined` value: `undefined` and
`null` short-circuit to `undefined`. -/
def optChain0 : Option JSVal → Option JSVal
  | none => none
  | some .null => none
  | some v => jsIndex0 v

/-- JS `x || dflt` on a possibly-`undefined` value. -/
def jsOrDefault (v : Option JSVal) (dflt : JSVal) : JSVal :=
  match v with
  | some x => if jsTruthy x then x else dflt
  | none => dflt

mutual

/-- Stringification of a JS array element (`Array.prototype.join`): `null`
renders as the empty string, nested arrays are joined recursively. -/
def jsToStringInArray : JSVal → String
  | .null => ""
  | .arr xs => String.intercalate "," (jsToStringArrElems xs)
  | .str s => s
  | .num n => toString n
  | .bool b => if b then "true" else "false"
  | .obj _ => "[object Object]"

/-- Element-wise stringification of a JS array's contents. -/
def jsToStringArrElems : List JSVal → List String
  | [] => []
  | v :: rest => jsToStringInArray v :: jsToStringArrElems rest

end

/-- JS `String(v)` coercion. Elements of an array are joined with `','`,
with `null` rendering as the empty string inside an array; an object
stringifies to `[object Object]`. -/
def jsToString : JSVal → String
  | .str s => s
  | .num n => toString n
  | .bool b => if b then "true" else "false"
  | .null => "null"
  | .obj _ => "[object Object]"
  | .arr xs => String.intercalate "," (jsToStringArrElems xs)

/-- Characters removed by JS `String.prototype.trim`. -/
def jsTrimChars (cs : List Char) : List Char :=
  ((cs.dropWhile Char.isWhitespace).reverse.dropWhile Char.isWhitespace).reverse

/-- Length of `s.trim()` — the quantity all the client's string validations
compare against 1 (`x.trim().length > 1`). -/
def jsTrimLen (s : String) : Nat := (jsTrimChars s.data).length

/-- The validity test the client applies to every credential / id option:
`typeof x === 'string' && x.trim().length > 1` (`none` = absent or not a
string). -/
def validStrOpt (o : Option String) : Bool :=
  match o with
  | some s => decide (jsTrimLen s > 1)
  | none => false

/-- Split a character list on a separator character (model of JS
`keyPath.split('.')`, which never discards empty segments). -/
def splitOnCharL (c : Char) (cs : List Char) : List (List Char) :=
  match cs with
  | [] => [[]]
  | x :: rest =>
    let r := splitOnCharL c rest
    if x = c then [] :: r
    else match r with
      | [] => [[x]]
      | g :: gs => (x :: g) :: gs

/-- JS `keyPath.split('.')`. -/
def splitDots (s : String) : List String :=
  (splitOnCharL '.' s.data).map String.mk

/-! ## XML Builder (`src/lib/XMLUtils.js`: `pad`, `escapeXMLString`, `wrapWithElement`) -/

/-- `pad(num)` from XMLUtils: `num` copies of the two-space unit when
`num > 0`, else empty (the `str` argument is always the default `'  '` at
every call site). -/
def padN (n : Int) : String :=
  if 0 < n then String.join (List.replicate n.toNat "  ") else ""

/-- `escapeXMLString`: replace each of `<`, `>`, `&` by its entity (single
pass, no other character touched). -/
def escapeXMLString (s : String) : String :=
  String.join (s.data.map (fun c =>
    if c = '<' then "&lt;"
    else if c = '>' then "&gt;"
    else if c = '&' then "&amp;"
    else String.mk [c]))

/-- The `data` argument of `wrapWithElement`: absent (`undefined`/`null`,
which make the element render as nothing), a scalar, a `Date`
(`date y m d` stores the local year, 1-based month and day the source reads
off the Date object), or a nested list of `[name, value]` pairs. -/
inductive EData where
  | missing
  | str (s : String)
  | int (n : Int)
  | bool (b : Bool)
  | date (y m d : Nat)
  | arr (children : List (String × EData))
deriving Repr

/-- JS `Number(s)` for a string, integral values only: leading/trailing
whitespace ignored, empty (after trim) is `0`, an optional sign followed by
decimal digits is its value, anything else is `NaN` (`none`). Fractional,
hex and exponent literals are not modelled — no call site or claim produces
them. -/
def jsParseNumber (s : String) : Option Int :=
  let t := jsTrimChars s.data
  match t with
  | [] => some 0
  | '-' :: ds => (digitsVal ds).map (fun v => -(v : Int))
  | '+' :: ds => (digitsVal ds).map (fun v => (v : Int))
  | ds => (digitsVal ds).map (fun v => (v : Int))
where
  /-- Value of a non-empty all-digit character list, else `none`. -/
  digitsVal (ds : List Char) : Option Nat :=
    if ds ≠ [] ∧ ds.all Char.isDigit then
      some (ds.foldl (fun a c => a * 10 + (c.toNat - '0'.toNat)) 0)
    else none

/-- JS `Number(data)` for the values `wrapWithElement` receives (`none` =
`NaN`). `Number([])` is `0`; a one-element array coerces through its element,
but here every array element is a `[name, value]` pair, which stringifies
with a comma and is `NaN`; `Number` of a `Date` is its epoch-millisecond
timestamp, not modelled (`none`) since no source call converts a `Date` to an
indent and the only downstream use is `|| 0`, where the huge timestamp never
arises in the embedded call sites. -/
def jsNumberE : EData → Option Int
  | .missing => none
  | .str s => jsParseNumber s
  | .int n => some n
  | .bool b => some (if b then 1 else 0)
  | .date _ _ _ => none
  | .arr [] => some 0
  | .arr (_ :: _) => none

/-- Line 32 of XMLUtils: `indentLevel = indentLevel || Number(data) || 0`
(`none` = the argument was omitted; an explicit `0` is falsy and falls
through to `Number(data) || 0`). -/
def effIndent (lvlArg : Option Int) (data : EData) : Int :=
  match lvlArg with
  | some l => if l ≠ 0 then l else (jsNumberE data).getD 0
  | none => (jsNumberE data).getD 0

/-- `String(data)` for the scalar branch of `wrapWithElement` (the `missing`,
`date` and `arr` cases are handled by earlier branches and never reach the
stringification). -/
def scalarString : EData → String
  | .str s => s
  | .int n => toString n
  | .bool b => if b then "true" else "false"
  | .missing => ""
  | .date _ _ _ => ""
  | .arr _ => ""

/-- The `Date` branch of `wrapWithElement`: `y + '-' + m + '-' + d` with
month/day zero-padded to two digits (`m` is already the 1-based month, i.e.
`getMonth() + 1`). -/
def dateYMD (y m d : Nat) : String :=
  toString y ++ "-" ++ (if m < 10 then "0" ++ toString m else toString m)
    ++ "-" ++ (if d < 10 then "0" ++ toString d else toString d)

mutual

/-- `wrapWithElement(name, data, indentLevel)` for a string `name`. The
source's array-`name` dispatch is split out as `wrapEList`; in the nested-array
branch the source recurses as `wrapWithElement(data, indentLevel)`, whose
re-derived indent `undefined || Number(indentLevel) || 0` equals the current
integer level, and each child then renders at that level plus one. -/
def wrapOne (name : String) (data : EData) (lvlArg : Option Int) : String :=
  let lvl := effIndent lvlArg data
  match data with
  | .missing => ""
  | .arr children =>
      padN lvl ++ "<" ++ name ++ ">" ++ "\n" ++ wrapEList children lvl
        ++ padN lvl ++ "</" ++ name ++ ">\n"
  | .date y m d => padN lvl ++ "<" ++ name ++ ">" ++ dateYMD y m d ++ "</" ++ name ++ ">\n"
  | d => padN lvl ++ "<" ++ name ++ ">" ++ escapeXMLString (scalarString d) ++ "</" ++ name ++ ">\n"

/-- `wrapWithElement(pairs, …)` when the first argument is an array:
`pairs.map(item => wrapWithElement(item[0], item[1], indentLevel + 1)).join('')`. -/
def wrapEList (children : List (String × EData)) (lvl : Int) : String :=
  match children with
  | [] => ""
  | (n, d) :: rest => wrapOne n d (some (lvl + 1)) ++ wrapEList rest lvl

end

/-- A top-level `wrapWithElement(pairs)` call (array name, `data` and
`indentLevel` omitted): the indent resolves to `Number(undefined) || 0 = 0`,
so children render at level 1. -/
def wrapTop (children : List (String × EData)) : String :=
  wrapEList children 0

/-! ## XML Projector (`src/lib/XMLUtils.js`: `xml2obj`).
`xml2obj` first parses its XML argument with the external `xml2js` library and
then projects the parse result; the parser is an external collaborator, so the
projection below takes the parse result as input and theorems quantify over
it. -/

/-- The segment loop of `xml2obj`: starting from the parse result, test
`p.hasOwnProperty(segment)` and move to `p[segment]`; on the first absent
segment set `found = false` and break (`none`). No first-element step happens
here — the raw property value is taken at every segment. -/
def walkPath (p : JSVal) (segs : List String) : Option JSVal :=
  match segs with
  | [] => some p
  | s :: rest =>
      match getProp p s with
      | some v => walkPath v rest
      | none => none

/-- JS object assignment `hash[k] = v` on an insertion-ordered object:
overwrite in place if the key exists, else append. The value is
possibly-`undefined` (`hash[k] = p[0]` stores `undefined` when `p` has no
element 0). -/
def jsObjSet (hash : List (String × Option JSVal)) (k : String) (v : Option JSVal) :
    List (String × Option JSVal) :=
  match hash with
  | [] => [(k, v)]
  | (k', v') :: rest => if k' = k then (k, v) :: rest else (k', v') :: jsObjSet rest k v

/-- One iteration of `xml2obj`'s `Object.keys(objList).forEach` body applied
to a parse result `res`: split the path on dots, run the segment walk, and
when it succeeds bind the output key to element 0 of the final value
(`hash[objList[keyPath]] = p[0]`); otherwise leave the hash untouched. -/
def projStep (res : JSVal) (hash : List (String × Option JSVal)) (kv : String × String) :
    List (String × Option JSVal) :=
  match walkPath res (splitDots kv.1) with
  | some p => jsObjSet hash kv.2 (jsIndex0 p)
  | none => hash

/-- The projection loop of `xml2obj` applied to a parse result `res`. -/
def xml2objProj (res : JSVal) (objList : List (String × String)) :
    List (String × Option JSVal) :=
  objList.foldl (projStep res) []

/-- Assoc lookup in a projection result (`parsed.pdf` etc.); the outer `none`
means the key is absent, `some none` means it is bound to `undefined`. -/
def hashLookup (hash : List (String × Option JSVal)) (k : String) : Option (Option JSVal) :=
  match hash with
  | [] => none
  | (k', v) :: rest => if k' = k then some v else hashLookup rest k

/-- Modelled from the spec (§4.2 `project`), for comparison with the code's
`xml2objProj`: "walk the nested mapping one segment at a time, taking the
first element of each sequence; if any segment is absent, the path is
skipped". A segment is looked up in the mapping and, when its value is a
sequence, replaced by the sequence's first element before walking on; the
output key is bound to the first element of the final sequence. -/
def specWalkFirst (p : JSVal) (segs : List String) : Option JSVal :=
  match segs with
  | [] => some p
  | s :: rest =>
      match p with
      | .obj kvs =>
          match jsLookup kvs s with
          | some v =>
              match v with
              | .arr xs =>
                  match xs.head? with
                  | some v1 => specWalkFirst v1 rest
                  | none => none
              | v1 => specWalkFirst v1 rest
          | none => none
      | _ => none

/-- Modelled from the spec (§4.2 `project`): the flat mapping whose output
keys are exactly those whose dotted path resolves under `specWalkFirst`. -/
def specProject (res : JSVal) (objList : List (String × String)) :
    List (String × Option JSVal) :=
  objList.foldl (fun hash kv =>
    match specWalkFirst res (splitDots kv.1) with
    | some p => jsObjSet hash kv.2 (some p)
    | none => hash) []

/-! ## Client construction (`src/lib/Client.js` constructor) -/

/-- The caller-supplied client options relevant to the protocol (`merge`
overlays them onto `defaultOptions`; `none` = field absent or not of the
checked type). -/
structure ClientRawOptions where
  authToken : Option String := none
  user : Option String := none
  password : Option String := none
  eInvoice : Option Bool := none
  requestInvoiceDownload : Option Bool := none
  downloadedInvoiceCount : Option Int := none
  responseVersion : Option Int := none

/-- `defaultOptions` merged with the caller's options (later sources win). -/
structure ClientState where
  useToken : Bool
  authToken : Option String
  user : Option String
  password : Option String
  eInvoice : Bool
  requestInvoiceDownload : Bool
  downloadedInvoiceCount : Int
  responseVersion : Int

/-- The constructor: merge defaults, set
`useToken = typeof authToken === 'string' && authToken.trim().length > 1`,
and when not in token mode `assert` a valid user and a valid password (the
assertion messages are the source's). -/
def constructClient (o : ClientRawOptions) : Except String ClientState :=
  let useToken := validStrOpt o.authToken
  if !useToken && !(validStrOpt o.user) then
    .error "Valid User field missing form client options"
  else if !useToken && !(validStrOpt o.password) then
    .error "Valid Password field missing form client options"
  else
    .ok {
      useToken := useToken
      authToken := o.authToken
      user := o.user
      password := o.password
      eInvoice := o.eInvoice.getD false
      requestInvoiceDownload := o.requestInvoiceDownload.getD false
      downloadedInvoiceCount := o.downloadedInvoiceCount.getD 1
      responseVersion := o.responseVersion.getD 1
    }

/-- Whether a `constructClient` run succeeded. -/
def ctorOk (o : ClientRawOptions) : Bool :=
  match constructClient o with
  | .ok _ => true
  | .error _ => false

/-- `_getAuthFields`: a single `szamlaagentkulcs` pair in token mode, else
`felhasznalo` followed by `jelszo` (absent credentials surface as JS
`undefined`, i.e. `EData.missing`). -/
def getAuthFields (c : ClientState) : List (String × EData) :=
  if c.useToken then
    [("szamlaagentkulcs", match c.authToken with | some t => .str t | none => .missing)]
  else
    [("felhasznalo", match c.user with | some u => .str u | none => .missing),
     ("jelszo", match c.password with | some p => .str p | none => .missing)]

/-- `_getXmlHeader(tag, dir)`: the verbatim template-literal preamble. -/
def getXmlHeader (tag dir : String) : String :=
  "<?xml version=\x22" ++ "1.0" ++ "\x22 encoding=\x22UTF-8\x22?>\n    <" ++ tag
    ++ " xmlns=\x22http://www.szamlazz.hu/" ++ tag
    ++ "\x22 xmlns:xsi=\x22http://www.w3.org/2001/XMLSchema-instance\x22\n      xsi:schemaLocation=\x22http://www.szamlazz.hu/"
    ++ tag ++ " https://www.szamlazz.hu/szamla/docs/xsds/" ++ dir ++ "/" ++ tag
    ++ ".xsd\x22>\n"

/-! ## Request builders (one per operation) -/

/-- Options of `getInvoiceData` (`none` = absent or not of the checked type). -/
structure GetInvoiceDataOptions where
  invoiceId : Option String := none
  orderNumber : Option String := none
  pdf : Option Bool := none

/-- An optional string option as `wrapWithElement` data (absent = omitted
element). -/
def optStrE : Option String → EData
  | some s => .str s
  | none => .missing

/-- The `getInvoiceData` request document: header, then a top-level
`wrapWithElement` over the auth fields followed by `szamlaszam`,
`rendelesSzam` and `pdf` — there is no wrapping settings element in this
operation. -/
def getInvoiceDataXml (c : ClientState) (o : GetInvoiceDataOptions) : String :=
  getXmlHeader "xmlszamlaxml" "agentxml"
    ++ wrapTop (getAuthFields c ++
        [("szamlaszam", optStrE o.invoiceId),
         ("rendelesSzam", optStrE o.orderNumber),
         ("pdf", match o.pdf with | some b => .bool b | none => .missing)])
    ++ "</xmlszamlaxml>"

/-- `getInvoiceData` up to the network send: the assertion
`hasInvoiceId || hasOrderNumber` (each = string with `trim().length > 1`),
then the built request document. -/
def getInvoiceDataReq (c : ClientState) (o : GetInvoiceDataOptions) : Except String String :=
  if validStrOpt o.invoiceId || validStrOpt o.orderNumber then
    .ok (getInvoiceDataXml c o)
  else
    .error "Either invoiceId or orderNumber must be specified"

/-- The `issueInvoice` request document: header, the `beallitasok` settings
element at explicit indent 1 (auth fields, then the client's configured
`eszamla`, `szamlaLetoltes`, `szamlaLetoltesPld`, `valaszVerzio`), then the
invoice collaborator's self-rendered fragment (`invoice._generateXML(1)`,
opaque here). -/
def issueInvoiceXml (c : ClientState) (invoiceFragment : String) : String :=
  getXmlHeader "xmlszamla" "agent"
    ++ wrapOne "beallitasok" (.arr (getAuthFields c ++
        [("eszamla", .bool c.eInvoice),
         ("szamlaLetoltes", .bool c.requestInvoiceDownload),
         ("szamlaLetoltesPld", .int c.downloadedInvoiceCount),
         ("valaszVerzio", .int c.responseVersion)])) (some 1)
    ++ invoiceFragment
    ++ "</xmlszamla>"

/-- The `reverseInvoice` request document (validation passed): header, the
`beallitasok` settings element with omitted indent (auth fields then the
stringified `eszamla` / `szamlaLetoltes` options), the `fejlec` element with
the invoice number and today's date, then the closing tag. -/
def reverseInvoiceXml (c : ClientState) (invoiceId : String)
    (eInvoice requestInvoiceDownload : Bool) (y m d : Nat) : String :=
  getXmlHeader "xmlszamlast" "agentst"
    ++ wrapOne "beallitasok" (.arr (getAuthFields c ++
        [("eszamla", .str (if eInvoice then "true" else "false")),
         ("szamlaLetoltes", .str (if requestInvoiceDownload then "true" else "false"))])) none
    ++ wrapOne "fejlec" (.arr
        [("szamlaszam", .str invoiceId),
         ("keltDatum", .date y m d)]) none
    ++ "</xmlszamlast>"

/-- The `queryTaxPayer` request document (validation passed): header, the
`beallitasok` settings element holding only the auth fields at indent 1, a
`torzsszam` element at indent 1, then the closing tag. -/
def queryTaxPayerXml (c : ClientState) (taxPayerId : Int) : String :=
  getXmlHeader "xmltaxpayer" "agent"
    ++ wrapOne "beallitasok" (.arr (getAuthFields c)) (some 1)
    ++ wrapOne "torzsszam" (.int taxPayerId) (some 1)
    ++ "</xmltaxpayer>"

/-- Options of `registerCreditEntry` (`additive` is whatever JS value the
caller put there, absent = `undefined`). -/
structure RegisterCreditEntryOptions where
  invoiceId : String
  taxNumber : Option String := none
  additive : Option JSVal := none

/-- `options.additive || true` — the value actually rendered into the
`additiv` element before `String(...)`. -/
def additiveValue (additive : Option JSVal) : JSVal :=
  jsOrDefault additive (.bool true)

/-- `options.taxNumber || ''`. -/
def taxNumberValue (taxNumber : Option String) : String :=
  match taxNumber with
  | some s => if s = "" then "" else s
  | none => ""

/-- The `registerCreditEntry` request document (validation passed): header,
the `beallitasok` settings element at indent 1 (auth fields, `szamlaszam`,
`adoszam` defaulted to the empty string, `additiv` as
`String(options.additive || true)`), then each credit entry's self-rendered
fragment (`creditEntry._generateXML()`, opaque here) joined in input order. -/
def registerCreditEntryXml (c : ClientState) (o : RegisterCreditEntryOptions)
    (entryFragments : List String) : String :=
  getXmlHeader "xmlszamlakifiz" "agentkifiz"
    ++ wrapOne "beallitasok" (.arr (getAuthFields c ++
        [("szamlaszam", .str o.invoiceId),
         ("adoszam", .str (taxNumberValue o.taxNumber)),
         ("additiv", .str (jsToString (additiveValue o.additive)))])) (some 1)
    ++ String.join entryFragments
    ++ "</xmlszamlakifiz>"

/-! ## Models of external JS builtins used in response decoding -/

/-- UTF-8 bytes of a character (for re-encoding the non-escaped characters of
a percent-encoded string). -/
def charUtf8Bytes (c : Char) : List UInt8 :=
  let n := c.toNat
  if n < 0x80 then [UInt8.ofNat n]
  else if n < 0x800 then [UInt8.ofNat (0xC0 + n / 64), UInt8.ofNat (0x80 + n % 64)]
  else if n < 0x10000 then
    [UInt8.ofNat (0xE0 + n / 4096), UInt8.ofNat (0x80 + n / 64 % 64), UInt8.ofNat (0x80 + n % 64)]
  else
    [UInt8.ofNat (0xF0 + n / 262144), UInt8.ofNat (0x80 + n / 4096 % 64),
     UInt8.ofNat (0x80 + n / 64 % 64), UInt8.ofNat (0x80 + n % 64)]

/-- Value of a hexadecimal digit (both letter cases accepted), else `none`. -/
def hexDigitVal (c : Char) : Option Nat :=
  let n := c.toNat
  if 48 ≤ n ∧ n ≤ 57 then some (n - 48)
  else if 65 ≤ n ∧ n ≤ 70 then some (n - 55)
  else if 97 ≤ n ∧ n ≤ 102 then some (n - 87)
  else none

/-- Whether a byte is a UTF-8 continuation byte. -/
def isContByte (b : UInt8) : Bool := 0x80 ≤ b.toNat && b.toNat < 0xC0

/-- Strict UTF-8 decoding of a byte list (`none` on malformed input, matching
`decodeURIComponent`'s `URIError` on bad percent-encoded sequences). -/
def utf8DecodeList : List UInt8 → Option (List Char)
  | [] => some []
  | b :: rest =>
    let n := b.toNat
    if n < 0x80 then (utf8DecodeList rest).map (Char.ofNat n :: ·)
    else if n < 0xC0 then none
    else if n < 0xE0 then
      match rest with
      | c1 :: rest1 =>
        if isContByte c1 then
          let cp := (n - 0xC0) * 64 + (c1.toNat - 0x80)
          if 0x80 ≤ cp then (utf8DecodeList rest1).map (Char.ofNat cp :: ·) else none
        else none
      | [] => none
    else if n < 0xF0 then
      match rest with
      | c1 :: c2 :: rest2 =>
        if isContByte c1 && isContByte c2 then
          let cp := (n - 0xE0) * 4096 + (c1.toNat - 0x80) * 64 + (c2.toNat - 0x80)
          if 0x800 ≤ cp ∧ ¬(0xD800 ≤ cp ∧ cp < 0xE000) then
            (utf8DecodeList rest2).map (Char.ofNat cp :: ·)
          else none
        else none
      | _ => none
    else if n < 0xF8 then
      match rest with
      | c1 :: c2 :: c3 :: rest3 =>
        if isContByte c1 && isContByte c2 && isContByte c3 then
          let cp := (n - 0xF0) * 262144 + (c1.toNat - 0x80) * 4096
            + (c2.toNat - 0x80) * 64 + (c3.toNat - 0x80)
          if 0x10000 ≤ cp ∧ cp < 0x110000 then
            (utf8DecodeList rest3).map (Char.ofNat cp :: ·)
          else none
        else none
      | _ => none
    else none

/-- Percent-decoding of a character list into bytes: `%XY` is the byte with
hex value `XY` (`none` = malformed escape, JS `URIError`); every other
character contributes its UTF-8 bytes. -/
def percentDecodeBytes : List Char → Option (List UInt8)
  | [] => some []
  | '%' :: rest =>
    match rest with
    | a :: b :: rest2 =>
      match hexDigitVal a, hexDigitVal b with
      | some ha, some hb => (percentDecodeBytes rest2).map (UInt8.ofNat (16 * ha + hb) :: ·)
      | _, _ => none
    | _ => none
  | c :: rest => (percentDecodeBytes rest).map (charUtf8Bytes c ++ ·)

/-- Model of the JS builtin `decodeURIComponent`: percent-decode to bytes and
decode those as UTF-8; `none` models the thrown `URIError`. -/
def decodeURIComponentM (s : String) : Option String :=
  ((percentDecodeBytes s.data).bind utf8DecodeList).map String.mk

/-- `s.replace(/\+/g, ' ')`. -/
def plusToSpace (s : String) : String :=
  String.mk (s.data.map (fun c => if c = '+' then ' ' else c))

/-- Value of a base64 alphabet character, else `none`. -/
def b64CharVal (c : Char) : Option Nat :=
  let n := c.toNat
  if 65 ≤ n ∧ n ≤ 90 then some (n - 65)
  else if 97 ≤ n ∧ n ≤ 122 then some (n - 71)
  else if 48 ≤ n ∧ n ≤ 57 then some (n + 4)
  else if n = 43 then some 62
  else if n = 47 then some 63
  else none

/-- Decode base64 sextets in groups of four into bytes; a trailing group of
three or two sextets yields two or one bytes, a lone trailing sextet yields
nothing. -/
def b64Groups : List Nat → List UInt8
  | a :: b :: c :: d :: rest =>
      UInt8.ofNat (a * 4 + b / 16) :: UInt8.ofNat (b % 16 * 16 + c / 4)
        :: UInt8.ofNat (c % 4 * 64 + d) :: b64Groups rest
  | [a, b, c] => [UInt8.ofNat (a * 4 + b / 16), UInt8.ofNat (b % 16 * 16 + c / 4)]
  | [a, b] => [UInt8.ofNat (a * 4 + b / 16)]
  | _ => []

/-- Model of Node's `Buffer.from(s, 'base64')` for string input: characters
outside the base64 alphabet (including `=` padding) are skipped and the
remaining sextets are decoded; it never throws on a string. -/
def bufferFromBase64 (s : String) : List UInt8 :=
  b64Groups (s.data.filterMap b64CharVal)

/-! ## Transport decode (`_sendRequest`, lines 226-267) -/

/-- The response headers `_sendRequest` and the operations read (`none` =
header absent; JS reads an absent header as `undefined`, which is
indistinguishable from an empty-string header for every truthiness test in
the source). -/
structure RespHeaders where
  szlahu_error_code : Option String := none
  szlahu_error : Option String := none
  szlahu_szamlaszam : Option String := none
  szlahu_nettovegosszeg : Option String := none
  szlahu_bruttovegosszeg : Option String := none
  szlahu_vevoifiokurl : Option String := none

/-- Truthiness of a possibly-absent header string. -/
def truthyStrOpt : Option String → Bool
  | some s => !(s == "")
  | none => false

/-- A raw HTTP response as axios hands it back. -/
structure HttpResponse where
  status : Nat
  statusText : String
  headers : RespHeaders
  data : JSVal

/-- The failures `_sendRequest` and the decoders can raise. -/
inductive SendErr where
  | transport (status : Nat) (statusText : String)
  | service (message : String) (code : Option JSVal)
  | typeError
  | uriError
  | parseFail (e : String)
deriving Repr

/-- The response-side of `_sendRequest`. The XML parse of the body is
performed by the external `xml2js` library, so its outcome is taken as the
`parsed` input; the binary / credit-entry early return never consults it.
Order of checks, as in the source: non-200 status; the `szlahu_error_code`
header (message = `decodeURIComponent` of the paired `szlahu_error` header
with `+` replaced by spaces first, code = the header value); the
binary-download / `action-szamla_agent_kifiz` early return; the XML parse;
the embedded `xmlszamlavalasz.hibakod` error node (message = `String` of the
`hibauzenet` value, empty when absent; code = `hibakod[0]`). -/
def sendRequestDecode (fileFieldName : String) (isBinaryDownload : Bool)
    (resp : HttpResponse) (parsed : Except String JSVal) : Except SendErr HttpResponse :=
  if resp.status ≠ 200 then .error (.transport resp.status resp.statusText)
  else if truthyStrOpt resp.headers.szlahu_error_code then
    match resp.headers.szlahu_error with
    | none => .error .typeError
    | some raw =>
      match decodeURIComponentM (plusToSpace raw) with
      | none => .error .uriError
      | some msg =>
          .error (.service msg (some (.str (resp.headers.szlahu_error_code.getD ""))))
  else if isBinaryDownload || fileFieldName == "action-szamla_agent_kifiz" then
    .ok resp
  else
    match parsed with
    | .error e => .error (.parseFail e)
    | .ok body =>
      match getProp body "xmlszamlavalasz" with
      | some v =>
        if jsTruthy v then
          match getProp v "hibakod" with
          | some hk =>
            if jsTruthy hk then
              .error (.service
                (match getProp v "hibauzenet" with
                 | none => ""
                 | some m => jsToString m)
                (jsIndex0 hk))
            else .ok resp
          | none => .ok resp
        else .ok resp
      | none => .ok resp

/-! ## `issueInvoice` response decode (lines 110-127) -/

/-- The typed result of `issueInvoice`: summary fields straight from the
response headers, and the optional PDF bytes. -/
structure IssueInvoiceResult where
  invoiceId : Option String
  netTotal : Option String
  grossTotal : Option String
  customerAccountUrl : Option String
  pdf : Option (List UInt8)
deriving Repr

/-- The decode half of `issueInvoice`. With `responseVersion = 1` the request
was sent as a binary download and `rawBody` holds the response bytes
(`Buffer.from(httpResponse.data)`); with version 2 the body is text, re-parsed
through `xml2obj` whose `xml2js` outcome is the `parsed` input, and the
`xmlszamlavalasz.pdf` projection is decoded as base64. `Buffer.from(x,
'base64')` throws a `TypeError` when `parsed.pdf` is `undefined` or not a
string (the projection of a parsed XML leaf is a string or an object, never
an array-like of numbers). -/
def issueInvoiceDecode (c : ClientState) (h : RespHeaders) (rawBody : List UInt8)
    (parsed : Except String JSVal) : Except SendErr IssueInvoiceResult :=
  let base : IssueInvoiceResult := {
    invoiceId := h.szlahu_szamlaszam
    netTotal := h.szlahu_nettovegosszeg
    grossTotal := h.szlahu_bruttovegosszeg
    customerAccountUrl := h.szlahu_vevoifiokurl
    pdf := none }
  if c.requestInvoiceDownload then
    if c.responseVersion == 1 then
      .ok { base with pdf := some rawBody }
    else if c.responseVersion == 2 then
      match parsed with
      | .error e => .error (.parseFail e)
      | .ok res =>
        match hashLookup (xml2objProj res [("xmlszamlavalasz.pdf", "pdf")]) "pdf" with
        | some (some (.str s)) => .ok { base with pdf := some (bufferFromBase64 s) }
        | _ => .error .typeError
    else .ok base
  else .ok base

/-! ## `queryTaxPayer` response decode (lines 142-165, 193-205) -/

/-- `_extractAddress(addressList)`: `null` when the list is absent/falsy or
has no truthy `taxpayerAddressItem`; otherwise the first item's
`taxpayerAddress?.[0]` (defaulted to `{}`) projected onto the six address
fields, each defaulted to `null`. Reading `.taxpayerAddress` off
`taxpayerAddressItem[0]` throws a `TypeError` when the item array is empty
(the `?.` sits one step too late to guard it). -/
def extractAddress (addressList : Option JSVal) : Except SendErr JSVal :=
  match addressList with
  | none => .ok .null
  | some al =>
    if !(jsTruthy al) then .ok .null
    else
      match getProp al "taxpayerAddressItem" with
      | none => .ok .null
      | some items =>
        if !(jsTruthy items) then .ok .null
        else
          match jsIndex0 items with
          | none => .error .typeError
          | some .null => .error .typeError
          | some item0 =>
            let addressItem := jsOrDefault (optChain0 (getProp item0 "taxpayerAddress")) (.obj [])
            .ok (.obj [
              ("countryCode", jsOrDefault (optChain0 (getProp addressItem "countryCode")) .null),
              ("postalCode", jsOrDefault (optChain0 (getProp addressItem "postalCode")) .null),
              ("city", jsOrDefault (optChain0 (getProp addressItem "city")) .null),
              ("streetName", jsOrDefault (optChain0 (getProp addressItem "streetName")) .null),
              ("publicPlaceCategory",
                jsOrDefault (optChain0 (getProp addressItem "publicPlaceCategory")) .null),
              ("number", jsOrDefault (optChain0 (getProp addressItem "number")) .null)])

/-- The strict-equality test `taxpayerValidity?.[0] === 'true'` on the
`QueryTaxpayerResponse` content: only a string leaf equal to `"true"`
counts. -/
def tvIsTrue (d : JSVal) : Bool :=
  match optChain0 (getProp d "taxpayerValidity") with
  | some (.str s) => s == "true"
  | _ => false

/-- The decode half of `queryTaxPayer`, applied to the namespace-stripped
parse result (`removeNamespaces(parsedBody)`; the stripping pass lives in
`XMLUtils.js` outside the embedded sources, so the decode is stated on its
output). Reads `QueryTaxpayerResponse` (a missing root makes the next
property read throw), tests `taxpayerValidity?.[0] === 'true'`, and returns
either the bare `{taxpayerValidity: false}` object or the full taxpayer
projection. -/
def queryTaxPayerDecode (cleanParsedBody : JSVal) : Except SendErr JSVal :=
  match getProp cleanParsedBody "QueryTaxpayerResponse" with
  | none => .error .typeError
  | some .null => .error .typeError
  | some d =>
    if !(tvIsTrue d) then .ok (.obj [("taxpayerValidity", .bool false)])
    else
      let taxpayerData := jsOrDefault (optChain0 (getProp d "taxpayerData")) (.obj [])
      let taxNumberDetail :=
        jsOrDefault (optChain0 (getProp taxpayerData "taxNumberDetail")) (.obj [])
      match extractAddress (optChain0 (getProp taxpayerData "taxpayerAddressList")) with
      | .error e => .error e
      | .ok addr =>
        .ok (.obj [
          ("taxpayerValidity", .bool true),
          ("taxpayerId", jsOrDefault (optChain0 (getProp taxNumberDetail "taxpayerId")) .null),
          ("vatCode", jsOrDefault (optChain0 (getProp taxNumberDetail "vatCode")) .null),
          ("countyCode", jsOrDefault (optChain0 (getProp taxNumberDetail "countyCode")) .null),
          ("taxpayerName", jsOrDefault (optChain0 (getProp taxpayerData "taxpayerName")) .null),
          ("taxpayerShortName",
            jsOrDefault (optChain0 (getProp taxpayerData "taxpayerShortName")) .null),
          ("address", addr)])

/-! ## Auxiliary predicates and concrete fixtures used by the theorems -/

/-- Whether the first list is an initial segment of the second. -/
def leadsWith : List Char → List Char → Bool
  | [], _ => true
  | a :: as, b :: bs => if a = b then leadsWith as bs else false
  | _ :: _, [] => false

/-- Whether `sub` occurs contiguously inside `hay`. -/
def strContainsSub (hay sub : List Char) : Bool :=
  match hay with
  | [] => leadsWith sub []
  | _ :: rest => leadsWith sub hay || strContainsSub rest sub

/-- Whether `needle` occurs as a substring of `hay`. -/
def strContainsB (hay needle : String) : Bool := strContainsSub hay.data needle.data

mutual

/-- The shape of an attribute-free `xml2js` element value: a text leaf, or a
mapping from child tags to non-empty sequences of child values. -/
def isParsedNode : JSVal → Bool
  | .str _ => true
  | .obj kvs => isParsedProps kvs
  | _ => false

/-- Each property of a parsed element maps to a sequence of child nodes. -/
def isParsedProps : List (String × JSVal) → Bool
  | [] => true
  | (_, v) :: rest =>
      (match v with
       | .arr xs => isParsedSeq xs
       | _ => false) && isParsedProps rest

/-- A non-empty sequence of parsed child nodes. -/
def isParsedSeq : List JSVal → Bool
  | [] => false
  | [v] => isParsedNode v
  | v :: rest => isParsedNode v && isParsedSeq rest

end

/-- The shape of a full `xml2js` parse result: a single root tag mapped
directly (not through a sequence) to its element value. -/
def isParsedDoc : JSVal → Bool
  | .obj [(_, v)] => isParsedNode v
  | _ => false

/-- A token-mode client fixture (all other configuration at its default but
`requestInvoiceDownload` on and `responseVersion` 2). -/
def clientTokEx : ClientState := {
  useToken := true, authToken := some "tok-1234", user := none, password := none,
  eInvoice := false, requestInvoiceDownload := true, downloadedInvoiceCount := 1,
  responseVersion := 2 }

/-- The parse result of `<a><b><c>x</c></b></a>`. -/
def nestedDocEx : JSVal :=
  .obj [("a", .obj [("b", .arr [.obj [("c", .arr [.str "x"])]])])]

/-- The parse result of a version-2 response wrapper carrying a base64 `pdf`
leaf (`<xmlszamlavalasz><pdf>QUJD</pdf></xmlszamlavalasz>`). -/
def pdfDocEx : JSVal :=
  .obj [("xmlszamlavalasz", .obj [("pdf", .arr [.str "QUJD"])])]

/-- A 200 response whose headers carry the error-code field holding the empty
string. -/
def respEmptyCodeEx : HttpResponse := {
  status := 200, statusText := "OK",
  headers := { szlahu_error_code := some "", szlahu_error := some "ignored" },
  data := .null }

/-- A 200 response carrying a service error in its headers. -/
def respHeaderErrEx : HttpResponse := {
  status := 200, statusText := "OK",
  headers := { szlahu_error_code := some "57", szlahu_error := some "Hiba%3A+teszt" },
  data := .str "<xml/>" }

/-- A clean 200 response with no error headers. -/
def respOkEx : HttpResponse := {
  status := 200, statusText := "OK", headers := {}, data := .str "body" }

/-- The namespace-stripped parse result of a `queryTaxPayer` response whose
validity leaf is the string `"false"`. -/
def qtpInvalidEx : JSVal :=
  .obj [("QueryTaxpayerResponse", .obj [("taxpayerValidity", .arr [.str "false"])])]

/-- The scalar cases of `wrapWithElement`'s `data` argument (the ones that
reach the `String(data)` stringification). -/
def isScalarE : EData → Bool
  | .str _ => true
  | .int _ => true
  | .bool _ => true
  | _ => false

/-! # Shared lemmas -/

/-- Rendering a concatenated pair list concatenates the renderings. -/
theorem wrapEList_append (a b : List (String × EData)) (lvl : Int) :
    wrapEList (a ++ b) lvl = wrapEList a lvl ++ wrapEList b lvl := by
  induction a with
  | nil => simp [wrapEList]
  | cons hd tl ih =>
    obtain ⟨n, d⟩ := hd
    simp [wrapEList, ih, String.append_assoc]

/-- Setting a key makes it readable. -/
theorem hashLookup_jsObjSet_self (h : List (String × Option JSVal)) (k : String)
    (v : Option JSVal) : hashLookup (jsObjSet h k v) k = some v := by
  induction h with
  | nil => simp [jsObjSet, hashLookup]
  | cons hd tl ih =>
    obtain ⟨k', v'⟩ := hd
    by_cases hk : k' = k <;> simp [jsObjSet, hashLookup, hk, ih]

/-- Setting a key leaves other keys unchanged. -/
theorem hashLookup_jsObjSet_other (h : List (String × Option JSVal)) (k k' : String)
    (v : Option JSVal) (hne : k ≠ k') :
    hashLookup (jsObjSet h k v) k' = hashLookup h k' := by
  induction h with
  | nil => simp [jsObjSet, hashLookup, hne]
  | cons hd tl ih =>
    obtain ⟨k'', v''⟩ := hd
    by_cases hk : k'' = k
    · subst hk; simp [jsObjSet, hashLookup, hne]
    · by_cases hk2 : k'' = k'
      · subst hk2; simp [jsObjSet, hashLookup, hk]
      · simp [jsObjSet, hashLookup, hk, hk2, ih]

/-- Path entries whose output key is not `k` never touch `k`. -/
theorem foldl_projStep_untouched (res : JSVal) (l : List (String × String))
    (hash : List (String × Option JSVal)) (k : String) (hout : k ∉ l.map Prod.snd) :
    hashLookup (l.foldl (projStep res) hash) k = hashLookup hash k := by
  induction l generalizing hash with
  | nil => rfl
  | cons hd tl ih =>
    obtain ⟨kp, ok⟩ := hd
    simp only [List.map_cons, List.mem_cons] at hout
    push_neg at hout
    obtain ⟨hne, htl⟩ := hout
    rw [List.foldl_cons, ih _ htl]
    unfold projStep
    cases walkPath res (splitDots kp) with
    | none => rfl
    | some p => exact hashLookup_jsObjSet_other _ _ _ _ (fun h => hne h.symm)

/-- The output key of a path entry reads back exactly the walk's outcome,
provided no other entry writes the same key and it starts unset. -/
theorem foldl_projStep_lookup (res : JSVal) (l : List (String × String))
    (hash : List (String × Option JSVal)) (kp ok : String)
    (hmem : (kp, ok) ∈ l) (hnodup : (l.map Prod.snd).Nodup)
    (hinit : hashLookup hash ok = none) :
    hashLookup (l.foldl (projStep res) hash) ok =
      (walkPath res (splitDots kp)).map jsIndex0 := by
  induction l generalizing hash with
  | nil => exact absurd hmem (List.not_mem_nil _)
  | cons hd tl ih =>
    obtain ⟨kp1, ok1⟩ := hd
    simp only [List.map_cons, List.nodup_cons] at hnodup
    obtain ⟨hout, hnodtl⟩ := hnodup
    rw [List.foldl_cons]
    rcases List.mem_cons.mp hmem with heq | htl
    · obtain ⟨h1, h2⟩ : kp = kp1 ∧ ok = ok1 := Prod.mk.injEq .. ▸ heq
      subst h1; subst h2
      rw [foldl_projStep_untouched res tl _ ok hout]
      unfold projStep
      cases hw : walkPath res (splitDots kp) with
      | none => simpa using hinit
      | some p => simp [hashLookup_jsObjSet_self]
    · have hne1 : ok1 ≠ ok := fun h =>
        hout (h ▸ List.mem_map_of_mem Prod.snd htl)
      apply ih _ htl hnodtl
      unfold projStep
      cases hw : walkPath res (splitDots kp1) with
      | none => exact hinit
      | some p => rw [hashLookup_jsObjSet_other _ _ _ _ hne1]; exact hinit

/-- A validity leaf that is not the string `"true"` fails the strict-equality
test. -/
theorem tvIsTrue_false_of_ne (d : JSVal)
    (hne : optChain0 (getProp d "taxpayerValidity") ≠ some (.str "true")) :
    tvIsTrue d = false := by
  unfold tvIsTrue
  cases hv : optChain0 (getProp d "taxpayerValidity") with
  | none => rfl
  | some v =>
    cases v with
    | str s =>
      have hs : s ≠ "true" := fun h => hne (by rw [hv, h])
      simpa using hs
    | num n => rfl
    | bool b => rfl
    | null => rfl
    | arr xs => rfl
    | obj kvs => rfl

/-- A left fold of string concatenation peels off its accumulator. -/
theorem strFoldlAppend (l : List String) (acc : String) :
    l.foldl (· ++ ·) acc = acc ++ l.foldl (· ++ ·) "" := by
  induction l generalizing acc with
  | nil => simp [List.foldl]
  | cons a l ih =>
    rw [List.foldl_cons, List.foldl_cons, ih (acc ++ a), ih ("" ++ a),
      String.append_assoc, String.empty_append]

/-- A positive pad is never the empty string. -/
theorem padN_ne_empty (k : Int) (hk : 0 < k) : padN k ≠ "" := by
  unfold padN
  rw [if_pos hk]
  obtain ⟨t, ht⟩ : ∃ t, k.toNat = t + 1 := ⟨k.toNat - 1, by omega⟩
  rw [ht]
  intro h
  have hd := congrArg String.data h
  rw [List.replicate_succ, String.join, List.foldl_cons, strFoldlAppend,
    String.empty_append, String.data_append] at hd
  simp at hd

/-! # Claim theorems -/

/-- C1 (counterexample): a 200 response whose headers contain the
`szlahu_error_code` field holding the empty string is not turned into a
`ServiceError` — the decode returns success, because the source tests the
header's truthiness, not its presence. -/
theorem headerErrorField_empty_success :
    respEmptyCodeEx.status = 200 ∧
    respEmptyCodeEx.headers.szlahu_error_code = some "" ∧
    sendRequestDecode "action-szamla_agent_st" true respEmptyCodeEx (Except.ok .null) =
      .ok respEmptyCodeEx :=
  ⟨rfl, rfl, rfl⟩

/-- C1 (amended): for every 200 response whose headers carry a non-empty
`szlahu_error_code` value and a paired `szlahu_error` header, every operation
fails with a `ServiceError` whose code is the error-code header and whose
message is the error-message header with `+` turned into spaces and then
URL-decoded — independently of the body and of its parse outcome, for every
operation and transfer mode. -/
theorem headerError_precedes_body (fieldName : String) (binary : Bool)
    (resp : HttpResponse) (parsed : Except String JSVal) (c m msg : String)
    (hstatus : resp.status = 200) (hcode : resp.headers.szlahu_error_code = some c)
    (hne : c ≠ "") (herr : resp.headers.szlahu_error = some m)
    (hdec : decodeURIComponentM (plusToSpace m) = some msg) :
    sendRequestDecode fieldName binary resp parsed =
      .error (.service msg (some (.str c))) := by
  unfold sendRequestDecode
  rw [hstatus, hcode, herr]
  simp [truthyStrOpt, beq_iff_eq, hne, hdec]

/-- C1 (witness): the amended theorem applied to a concrete header error,
with an unparseable body that is never consulted. -/
theorem headerError_precedes_body_witness :
    sendRequestDecode "action-xmlagentxmlfile" false respHeaderErrEx
      (Except.error "never parsed") =
      .error (.service "Hiba: teszt" (some (.str "57"))) :=
  headerError_precedes_body _ _ _ _ _ _ _ rfl rfl (by simp) rfl (by rfl)

/-- C2 (counterexample): on the parse of `<a><b><c>x</c></b></a>` and the
path spec `a.b.c ↦ out`, the walk described by the claim (first element of
each sequence at every segment) finds `"x"`, but the code's projector omits
the key entirely — intermediate segments are raw property reads, so a
segment nested under a repeated element is unreachable. -/
theorem projector_firstElement_cex :
    isParsedDoc nestedDocEx = true ∧
    specProject nestedDocEx [("a.b.c", "out")] = [("out", some (.str "x"))] ∧
    xml2objProj nestedDocEx [("a.b.c", "out")] = [] :=
  ⟨rfl, rfl, rfl⟩

/-- C2 (amended): for every parse result and path spec with distinct output
keys, an output key is present exactly when the raw-property walk over its
dotted path succeeds, and is then bound to element 0 of the final value (the
first element of the final sequence when that value is a sequence); no
first-element step is taken at intermediate segments. -/
theorem xml2obj_raw_walk (res : JSVal) (objList : List (String × String))
    (kp ok : String) (hmem : (kp, ok) ∈ objList)
    (hnodup : (objList.map Prod.snd).Nodup) :
    hashLookup (xml2objProj res objList) ok =
      (walkPath res (splitDots kp)).map jsIndex0 :=
  foldl_projStep_lookup res objList [] kp ok hmem hnodup rfl

/-- C2 (witness): the amended theorem applied to the version-2 PDF wrapper
projection. -/
theorem xml2obj_raw_walk_witness :
    hashLookup (xml2objProj pdfDocEx [("xmlszamlavalasz.pdf", "pdf")]) "pdf" =
      some (some (.str "QUJD")) := by
  rw [xml2obj_raw_walk pdfDocEx [("xmlszamlavalasz.pdf", "pdf")] "xmlszamlavalasz.pdf"
    "pdf" (by simp) (by simp)]
  rfl

/-- C3 (code bug): `options.additive || true` coerces a caller-supplied
`false` to `true`, so the `additiv` element renders `true` even though the
caller passed `false` — the flag can never be disabled by a boolean. -/
theorem registerCreditEntry_additive_false_coerced :
    additiveValue (some (.bool false)) = .bool true ∧
    strContainsB
      (registerCreditEntryXml clientTokEx
        { invoiceId := "INV-12", taxNumber := none, additive := some (.bool false) }
        ["<frag/>"])
      "<additiv>true</additiv>" = true ∧
    strContainsB
      (registerCreditEntryXml clientTokEx
        { invoiceId := "INV-12", taxNumber := none, additive := some (.bool false) }
        ["<frag/>"])
      "<additiv>false</additiv>" = false :=
  ⟨rfl, rfl, rfl⟩

/-- C4 (counterexample): supplying a valid token together with a valid
user/password pair does not make construction fail — token mode simply wins,
refuting the "but not both" part of the claim. -/
theorem ctor_bothModes_succeeds :
    validStrOpt (some "ab") = true ∧ validStrOpt (some "uu") = true ∧
    validStrOpt (some "pp") = true ∧
    ctorOk { authToken := some "ab", user := some "uu", password := some "pp" } = true :=
  ⟨rfl, rfl, rfl, rfl⟩

/-- C4 (amended): construction succeeds exactly when the token is valid
(trimmed length above one) — regardless of the other credentials — or, with
no valid token, when both user and password are valid. -/
theorem ctor_token_precedence (o : ClientRawOptions) :
    ctorOk o = (validStrOpt o.authToken || (validStrOpt o.user && validStrOpt o.password)) := by
  unfold ctorOk constructClient
  cases h1 : validStrOpt o.authToken <;> cases h2 : validStrOpt o.user <;>
    cases h3 : validStrOpt o.password <;> simp [h1, h2, h3]

/-- C5 (counterexample): `invoiceId = "A"` is a non-empty trimmed string, yet
validation fails — the code requires trimmed length strictly above one. -/
theorem getInvoiceData_singleChar_rejected :
    jsTrimLen "A" = 1 ∧
    getInvoiceDataReq clientTokEx { invoiceId := some "A", orderNumber := none, pdf := none } =
      .error "Either invoiceId or orderNumber must be specified" :=
  ⟨rfl, rfl⟩

/-- C5 (amended): `getInvoiceData` fails with the validation error exactly
when neither `invoiceId` nor `orderNumber` is a string of trimmed length
greater than one; otherwise the request document is built and handed to the
send. -/
theorem getInvoiceData_validation (c : ClientState) (o : GetInvoiceDataOptions) :
    (getInvoiceDataReq c o = .ok (getInvoiceDataXml c o) ↔
      (validStrOpt o.invoiceId || validStrOpt o.orderNumber) = true) ∧
    ((validStrOpt o.invoiceId || validStrOpt o.orderNumber) = false →
      getInvoiceDataReq c o = .error "Either invoiceId or orderNumber must be specified") := by
  unfold getInvoiceDataReq
  cases h : (validStrOpt o.invoiceId || validStrOpt o.orderNumber) <;> simp [h]

/-- C5 (witness): the amended theorem applied to a valid invoice id. -/
theorem getInvoiceData_validation_witness :
    getInvoiceDataReq clientTokEx
      { invoiceId := some "INV-42", orderNumber := none, pdf := none } =
      .ok (getInvoiceDataXml clientTokEx
        { invoiceId := some "INV-42", orderNumber := none, pdf := none }) :=
  (getInvoiceData_validation clientTokEx
    { invoiceId := some "INV-42", orderNumber := none, pdf := none }).1.mpr rfl

/-- C6: whenever the namespace-stripped response's `taxpayerValidity?.[0]`
leaf is anything other than the string literal `"true"` — `"false"`, absent,
or any non-string value — `queryTaxPayer` returns exactly
`{taxpayerValidity: false}` with no other keys. -/
theorem queryTaxPayer_nonTrue_exact (clean d : JSVal)
    (hroot : getProp clean "QueryTaxpayerResponse" = some d) (hnn : d ≠ .null)
    (hne : optChain0 (getProp d "taxpayerValidity") ≠ some (.str "true")) :
    queryTaxPayerDecode clean = .ok (.obj [("taxpayerValidity", .bool false)]) := by
  unfold queryTaxPayerDecode
  rw [hroot]
  have htv := tvIsTrue_false_of_ne d hne
  cases d with
  | null => exact absurd rfl hnn
  | str s => simp [htv]
  | num n => simp [htv]
  | bool b => simp [htv]
  | arr xs => simp [htv]
  | obj kvs => simp [htv]

/-- C6 (witness): the theorem applied to a response whose validity leaf is
the string `"false"`. -/
theorem queryTaxPayer_nonTrue_exact_witness :
    queryTaxPayerDecode qtpInvalidEx = .ok (.obj [("taxpayerValidity", .bool false)]) :=
  queryTaxPayer_nonTrue_exact qtpInvalidEx
    (.obj [("taxpayerValidity", .arr [.str "false"])]) rfl (by simp)
    (by simp [optChain0, getProp, jsLookup, jsIndex0])

/-- C7: with download off the result carries no pdf; with download on, the
configured response version decides the pdf: version 1 takes the entire raw
response body, version 2 base64-decodes exactly the string found by the
`xmlszamlavalasz.pdf` projection, and a version-2 response missing that path
fails with the `Buffer.from(undefined)` type error rather than yielding an
empty pdf. -/
theorem issueInvoice_pdf_version (c : ClientState) (h : RespHeaders)
    (raw : List UInt8) (res : JSVal) :
    (c.requestInvoiceDownload = false →
      issueInvoiceDecode c h raw (.ok res) =
        .ok ⟨h.szlahu_szamlaszam, h.szlahu_nettovegosszeg, h.szlahu_bruttovegosszeg,
             h.szlahu_vevoifiokurl, none⟩) ∧
    (c.requestInvoiceDownload = true → c.responseVersion = 1 →
      issueInvoiceDecode c h raw (.ok res) =
        .ok ⟨h.szlahu_szamlaszam, h.szlahu_nettovegosszeg, h.szlahu_bruttovegosszeg,
             h.szlahu_vevoifiokurl, some raw⟩) ∧
    (c.requestInvoiceDownload = true → c.responseVersion = 2 →
      (∀ p s, walkPath res ["xmlszamlavalasz", "pdf"] = some p →
        jsIndex0 p = some (.str s) →
        issueInvoiceDecode c h raw (.ok res) =
          .ok ⟨h.szlahu_szamlaszam, h.szlahu_nettovegosszeg, h.szlahu_bruttovegosszeg,
               h.szlahu_vevoifiokurl, some (bufferFromBase64 s)⟩) ∧
      (walkPath res ["xmlszamlavalasz", "pdf"] = none →
        issueInvoiceDecode c h raw (.ok res) = .error .typeError)) := by
  have hsplit : splitDots "xmlszamlavalasz.pdf" = ["xmlszamlavalasz", "pdf"] := rfl
  refine ⟨fun hdl => ?_, fun hdl hv => ?_, fun hdl hv => ⟨fun p s hw hi => ?_, fun hw => ?_⟩⟩
  · simp [issueInvoiceDecode, hdl]
  · simp [issueInvoiceDecode, hdl, hv]
  · simp [issueInvoiceDecode, hdl, hv, xml2objProj, projStep, hsplit, hw, hi,
      hashLookup_jsObjSet_self]
  · simp [issueInvoiceDecode, hdl, hv, xml2objProj, projStep, hsplit, hw, hashLookup]

/-- C7 (witness): the version-2 success case on a concrete wrapper document
(`QUJD` is the base64 of `ABC`). -/
theorem issueInvoice_pdf_version_witness :
    issueInvoiceDecode clientTokEx {} [] (.ok pdfDocEx) =
      .ok ⟨none, none, none, none, some (bufferFromBase64 "QUJD")⟩ :=
  ((issueInvoice_pdf_version clientTokEx {} [] pdfDocEx).2.2 rfl rfl).1
    (.arr [.str "QUJD"]) "QUJD" rfl rfl

/-- C8: after the status and header-error checks pass, a binary download or
the credit-entry operation returns the raw response unchanged whatever the
body's parse outcome would have been (the body is never run through the XML
parser); every other response is parsed — a parse failure propagates — and a
parsed body whose `xmlszamlavalasz` node carries a truthy `hibakod` fails
with a `ServiceError` built from the node's `hibauzenet` and `hibakod[0]`. -/
theorem sendRequest_body_stage (fieldName : String) (binary : Bool) (resp : HttpResponse)
    (hstatus : resp.status = 200)
    (hnoerr : truthyStrOpt resp.headers.szlahu_error_code = false) :
    ((binary = true ∨ fieldName = "action-szamla_agent_kifiz") →
      ∀ parsed, sendRequestDecode fieldName binary resp parsed = .ok resp) ∧
    (binary = false → fieldName ≠ "action-szamla_agent_kifiz" →
      (∀ e, sendRequestDecode fieldName binary resp (.error e) = .error (.parseFail e)) ∧
      (∀ body v hk mu, getProp body "xmlszamlavalasz" = some v → jsTruthy v = true →
        getProp v "hibakod" = some hk → jsTruthy hk = true →
        getProp v "hibauzenet" = some mu →
        sendRequestDecode fieldName binary resp (.ok body) =
          .error (.service (jsToString mu) (jsIndex0 hk)))) := by
  refine ⟨fun hbin parsed => ?_, fun hb hf => ⟨fun e => ?_, fun body v hk mu h1 h2 h3 h4 h5 => ?_⟩⟩
  · rcases hbin with hb | hf
    · simp [sendRequestDecode, hstatus, hnoerr, hb]
    · simp [sendRequestDecode, hstatus, hnoerr, hf]
  · simp [sendRequestDecode, hstatus, hnoerr, hb, beq_iff_eq, hf]
  · simp [sendRequestDecode, hstatus, hnoerr, hb, beq_iff_eq, hf, h1, h2, h3, h4, h5]

/-- C8 (witness): the credit-entry operation returns the raw response even
when the body would not parse as XML. -/
theorem sendRequest_body_stage_witness :
    sendRequestDecode "action-szamla_agent_kifiz" false respOkEx (.error "not xml") =
      .ok respOkEx :=
  (sendRequest_body_stage "action-szamla_agent_kifiz" false respOkEx rfl rfl).1
    (Or.inr rfl) (.error "not xml")

/-- C9 (counterexample): the `getInvoiceData` request document contains no
`beallitasok` settings element at all — its auth fields sit directly under
the document root — refuting the claim for that operation. -/
theorem getInvoiceData_no_settings_element :
    strContainsB (getInvoiceDataXml clientTokEx
      { invoiceId := some "INV-42", orderNumber := none, pdf := none })
      "<beallitasok>" = false ∧
    strContainsB (getInvoiceDataXml clientTokEx
      { invoiceId := some "INV-42", orderNumber := none, pdf := none })
      "<szamlaagentkulcs>" = true :=
  ⟨rfl, rfl⟩

/-- C9 (amended): in `issueInvoice`, `queryTaxPayer`, `registerCreditEntry`
and `reverseInvoice` the auth fields render as the first children of the
`beallitasok` settings element, which is the first element after the fixed
preamble; in `getInvoiceData` there is no settings element and the auth
fields render first, directly under the document root. -/
theorem auth_first_under_settings (c : ClientState) (frag invId : String)
    (o : GetInvoiceDataOptions) (ro : RegisterCreditEntryOptions)
    (entries : List String) (eInv reqDl : Bool) (y m d : Nat) (taxId : Int) :
    issueInvoiceXml c frag =
      getXmlHeader "xmlszamla" "agent"
        ++ (padN 1 ++ "<" ++ "beallitasok" ++ ">" ++ "\n"
            ++ (wrapEList (getAuthFields c) 1
                ++ wrapEList [("eszamla", .bool c.eInvoice),
                     ("szamlaLetoltes", .bool c.requestInvoiceDownload),
                     ("szamlaLetoltesPld", .int c.downloadedInvoiceCount),
                     ("valaszVerzio", .int c.responseVersion)] 1)
            ++ padN 1 ++ "</" ++ "beallitasok" ++ ">\n")
        ++ frag ++ "</xmlszamla>" ∧
    queryTaxPayerXml c taxId =
      getXmlHeader "xmltaxpayer" "agent"
        ++ (padN 1 ++ "<" ++ "beallitasok" ++ ">" ++ "\n"
            ++ wrapEList (getAuthFields c) 1
            ++ padN 1 ++ "</" ++ "beallitasok" ++ ">\n")
        ++ (padN 1 ++ "<" ++ "torzsszam" ++ ">"
            ++ escapeXMLString (scalarString (.int taxId))
            ++ "</" ++ "torzsszam" ++ ">\n")
        ++ "</xmltaxpayer>" ∧
    registerCreditEntryXml c ro entries =
      getXmlHeader "xmlszamlakifiz" "agentkifiz"
        ++ (padN 1 ++ "<" ++ "beallitasok" ++ ">" ++ "\n"
            ++ (wrapEList (getAuthFields c) 1
                ++ wrapEList [("szamlaszam", .str ro.invoiceId),
                     ("adoszam", .str (taxNumberValue ro.taxNumber)),
                     ("additiv", .str (jsToString (additiveValue ro.additive)))] 1)
            ++ padN 1 ++ "</" ++ "beallitasok" ++ ">\n")
        ++ String.join entries ++ "</xmlszamlakifiz>" ∧
    reverseInvoiceXml c invId eInv reqDl y m d =
      getXmlHeader "xmlszamlast" "agentst"
        ++ (padN 0 ++ "<" ++ "beallitasok" ++ ">" ++ "\n"
            ++ (wrapEList (getAuthFields c) 0
                ++ wrapEList [("eszamla", .str (if eInv then "true" else "false")),
                     ("szamlaLetoltes", .str (if reqDl then "true" else "false"))] 0)
            ++ padN 0 ++ "</" ++ "beallitasok" ++ ">\n")
        ++ (padN 0 ++ "<" ++ "fejlec" ++ ">" ++ "\n"
            ++ wrapEList [("szamlaszam", .str invId), ("keltDatum", .date y m d)] 0
            ++ padN 0 ++ "</" ++ "fejlec" ++ ">\n")
        ++ "</xmlszamlast>" ∧
    getInvoiceDataXml c o =
      getXmlHeader "xmlszamlaxml" "agentxml"
        ++ (wrapEList (getAuthFields c) 0
            ++ wrapEList [("szamlaszam", optStrE o.invoiceId),
                 ("rendelesSzam", optStrE o.orderNumber),
                 ("pdf", match o.pdf with | some b => EData.bool b | none => EData.missing)] 0)
        ++ "</xmlszamlaxml>" := by
  cases hc : c.useToken <;>
    refine ⟨?_, ?_, ?_, ?_, ?_⟩ <;>
      simp [issueInvoiceXml, queryTaxPayerXml, registerCreditEntryXml, reverseInvoiceXml,
        getInvoiceDataXml, wrapTop, wrapOne, wrapEList, effIndent, jsNumberE, getAuthFields,
        hc, String.append_assoc]

/-- C10: when the indent argument of `wrapWithElement` is omitted and the
data is a scalar whose JS `Number` coercion is a positive `k`, the element
renders indented `k` levels (a genuinely non-empty pad) — the numeric content
doubles as the indent level — while any explicit non-zero indent argument
takes precedence and renders the chosen level. -/
theorem wrap_numericData_indent (name : String) (data : EData) (k : Int)
    (hscalar : isScalarE data = true) (hnum : jsNumberE data = some k) (hpos : 0 < k) :
    wrapOne name data none =
      padN k ++ "<" ++ name ++ ">" ++ escapeXMLString (scalarString data)
        ++ "</" ++ name ++ ">\n" ∧
    padN k ≠ "" ∧
    (∀ l : Int, l ≠ 0 → wrapOne name data (some l) =
      padN l ++ "<" ++ name ++ ">" ++ escapeXMLString (scalarString data)
        ++ "</" ++ name ++ ">\n") := by
  refine ⟨?_, padN_ne_empty k hpos, fun l hl => ?_⟩
  · cases data <;> simp_all [wrapOne, effIndent, isScalarE]
  · cases data <;> simp_all [wrapOne, effIndent, isScalarE]

/-- C10 (witness): `wrapWithElement('torzsszam', 3)` renders at indent 3, and
an explicit indent 1 renders at indent 1. -/
theorem wrap_numericData_indent_witness :
    wrapOne "torzsszam" (.int 3) none =
      padN 3 ++ "<" ++ "torzsszam" ++ ">" ++ escapeXMLString (scalarString (.int 3))
        ++ "</" ++ "torzsszam" ++ ">\n" ∧
    padN 3 ≠ "" ∧
    wrapOne "torzsszam" (.int 3) (some 1) =
      padN 1 ++ "<" ++ "torzsszam" ++ ">" ++ escapeXMLString (scalarString (.int 3))
        ++ "</" ++ "torzsszam" ++ ">\n" :=
  ⟨(wrap_numericData_indent "torzsszam" (.int 3) 3 rfl rfl (by decide)).1,
   (wrap_numericData_indent "torzsszam" (.int 3) 3 rfl rfl (by decide)).2.1,
   (wrap_numericData_indent "torzsszam" (.int 3) 3 rfl rfl (by decide)).2.2 1 (by decide)⟩
